import Mathlib

/-!
Verification development for the SOCKS5 request-execution and relay engine
(`request.go`): request parsing, the resolve/rewrite/authorize pipeline,
the CONNECT and ASSOCIATE handlers, reply encoding, and the relay primitive.
External collaborators (name resolver, rule engine, rewriter, dialer, buffer
pool, worker pool, the wire codec `Parse`/`Header.Bytes`, and the Go platform
`net`/`io` packages) are modelled as oracles/parameters, as the spec treats
them as opaque interfaces.
-/

namespace Socks5

/-- Modelled from the spec (section 6): command codes CONNECT=1, BIND=2,
ASSOCIATE=3; the constants live in the external `statute` package. -/
def CommandConnect : Nat := 1

/-- Modelled from the spec: BIND command code. -/
def CommandBind : Nat := 2

/-- Modelled from the spec: ASSOCIATE command code. -/
def CommandAssociate : Nat := 3

/-- Modelled from the spec (section 6): address type IPv4 = 1. -/
def ATYPIPv4 : Nat := 1

/-- Modelled from the spec: address type Domain = 3. -/
def ATYPDomain : Nat := 3

/-- Modelled from the spec: address type IPv6 = 4. -/
def ATYPIPV6 : Nat := 4

/-- Modelled from the spec (section 6, RFC 1928): reply code Success. -/
def RepSuccess : Nat := 0

/-- Modelled from the spec: reply code ServerFailure. -/
def RepServerFailure : Nat := 1

/-- Modelled from the spec: reply code RuleFailure. -/
def RepRuleFailure : Nat := 2

/-- Modelled from the spec: reply code NetworkUnreachable. -/
def RepNetworkUnreachable : Nat := 3

/-- Modelled from the spec: reply code HostUnreachable. -/
def RepHostUnreachable : Nat := 4

/-- Modelled from the spec: reply code ConnectionRefused. -/
def RepConnectionRefused : Nat := 5

/-- Modelled from the spec: reply code CommandNotSupported. -/
def RepCommandNotSupported : Nat := 7

/-- Helper for `goContains`: substring test on character lists. -/
def goContainsAux : List Char → List Char → Bool
  | needle, [] => needle.isEmpty
  | needle, c :: rest => needle.isPrefixOf (c :: rest) || goContainsAux needle rest

/-- Model of Go `strings.Contains s sub` (platform function used by
`handleConnect`, `handleAssociate` and the ASSOCIATE loops). -/
def goContains (s sub : String) : Bool :=
  goContainsAux sub.toList s.toList

/-- `AddrSpec` (external `statute` package, modelled from the spec, section 3):
either an FQDN or an IP (4- or 16-byte), plus a port.  IPs are byte lists,
mirroring Go's `net.IP` slice. -/
structure AddrSpec where
  FQDN : String
  IP : List Nat
  Port : Nat
deriving Repr, DecidableEq

/-- `Header` (external `statute` package, modelled from the spec, section 3):
the parsed SOCKS5 request/reply framing.  `Command` doubles as the reply code
when the header is reused as a reply skeleton; `addrType` is the ATYP byte. -/
structure Header where
  Version : Nat
  Command : Nat
  addrType : Nat
  Address : AddrSpec
deriving Repr, DecidableEq

/-- `Request` (request.go lines 22-36).  `Reader` is the remaining byte
stream after the header; `DestAddr` is `none` until the pipeline sets it
(a nil pointer in Go).  The auth context and transport addresses are not
used by any modelled code path and are omitted. -/
structure Request where
  header : Header
  DestAddr : Option AddrSpec
  Reader : List Nat
  RawDestAddr : AddrSpec
deriving Repr, DecidableEq

/-- `NewRequest` (request.go lines 44-65), parameterised by the external wire
codec `Parse`, which consumes the header bytes and leaves the rest of the
stream (spec, section 4.1). -/
def NewRequest (parse : List Nat → Except String (Header × List Nat))
    (bufConn : List Nat) : Except String Request :=
  match parse bufConn with
  | .error e => .error e
  | .ok (hd, rest) =>
    if hd.Command ≠ CommandConnect ∧ hd.Command ≠ CommandBind ∧
        hd.Command ≠ CommandAssociate then
      .error ("unrecognized command[" ++ toString hd.Command ++ "]")
    else
      .ok { header := hd, DestAddr := none, Reader := rest,
            RawDestAddr := hd.Address }

/-- Concrete Go `net.Addr` values that can reach `SendReply`: a `*net.TCPAddr`,
a `*net.UDPAddr`, or any other address value (including typed nil pointers),
which the source lumps into the default branch of lines 336-345. -/
inductive GoAddr where
  | tcp (ip : List Nat) (port : Nat)
  | udp (ip : List Nat) (port : Nat)
  | other
deriving Repr, DecidableEq

/-- Go `net.IP.To4` (platform, modelled from the Go standard library): the
4-byte form of an IP — the slice itself when it has length 4, the last 4
bytes when it is a 16-byte IPv4-mapped address, and nil otherwise. -/
def goTo4 (ip : List Nat) : Option (List Nat) :=
  if ip.length = 4 then some ip
  else if ip.length = 16 ∧ (ip.take 10).all (· = 0) ∧
      ip.getD 10 0 = 255 ∧ ip.getD 11 0 = 255 then
    some (ip.drop 12)
  else none

/-- Go `net.IP.To16` (platform, modelled from the Go standard library): the
16-byte form — a length-4 slice is mapped into the IPv4-in-IPv6 prefix, a
length-16 slice is returned unchanged, anything else is nil. -/
def goTo16 (ip : List Nat) : Option (List Nat) :=
  if ip.length = 4 then some ([0, 0, 0, 0, 0, 0, 0, 0, 0, 0, 255, 255] ++ ip)
  else if ip.length = 16 then some ip
  else none

/-- The bound-address derivation of `SendReply` (request.go lines 335-345):
a TCP or UDP address contributes its IP and port; any other value defaults
to the zero IPv4 address and port 0.  The `AddrSpec{}` literal leaves the
FQDN empty in every branch. -/
def addrSpecOf : GoAddr → AddrSpec
  | .tcp ip port => { FQDN := "", IP := ip, Port := port }
  | .udp ip port => { FQDN := "", IP := ip, Port := port }
  | .other => { FQDN := "", IP := [0, 0, 0, 0], Port := 0 }

/-- The encoding switch of `SendReply` (request.go lines 346-362) applied to
an already-derived address spec: FQDN wins, then the 4-byte form, then the
16-byte form, else a formatting error.  Only the fields the source assigns
are overwritten on `head.Address`. -/
def encodeBound (head : Header) (spec : AddrSpec) : Except String Header :=
  if spec.FQDN ≠ "" then
    .ok { head with
          addrType := ATYPDomain
          Address := { head.Address with FQDN := spec.FQDN, Port := spec.Port } }
  else
    match goTo4 spec.IP with
    | some ip4 =>
      .ok { head with
            addrType := ATYPIPv4
            Address := { head.Address with IP := ip4, Port := spec.Port } }
    | none =>
      match goTo16 spec.IP with
      | some ip16 =>
        .ok { head with
              addrType := ATYPIPV6
              Address := { head.Address with IP := ip16, Port := spec.Port } }
      | none => .error "failed to format address"

/-- `SendReply` (request.go lines 318-367) up to the final write: the reply
header that would be handed to `Header.Bytes`.  With no bound address the
reply is typed IPv4 with the zero address and port 0; with one, the header
is produced by `encodeBound` over the derived spec. -/
def SendReply (head : Header) (resp : Nat) (bindAddr : Option GoAddr) :
    Except String Header :=
  let head := { head with Command := resp }
  match bindAddr with
  | none =>
    .ok { head with
          addrType := ATYPIPv4
          Address := { head.Address with IP := [0, 0, 0, 0], Port := 0 } }
  | some a => encodeBound head (addrSpecOf a)

/-- A reply attempt seen end to end: the format step of `SendReply` followed
by the write on the client connection, whose outcome (`none` = success,
`some msg` = I/O error) comes from the writer oracle. -/
def sendReplyTo (writeOutcome : Option String) (head : Header) (resp : Nat)
    (bindAddr : Option GoAddr) : Except String Header :=
  match SendReply head resp bindAddr with
  | .error e => .error e
  | .ok hd =>
    match writeOutcome with
    | some w => .error w
    | none => .ok hd

/-- The errors `handleRequest` and the command handlers return, mirroring the
`fmt.Errorf` messages of request.go (structured rather than formatted). -/
inductive PErr where
  | replyWriteFailed (msg : String)
  | resolveFailed (fqdn : String) (msg : String)
  | ruleBlocked (dest : AddrSpec)
  | unsupportedCommand (cmd : Nat)
  | connectFailed (dest : AddrSpec) (msg : String)
  | dialUdpInvalid
  | listenFailed (msg : String)
  | relayErr (msg : String)
deriving Repr, DecidableEq

/-- Observable side effects of the pipeline and handlers: replies written
(or attempted) on the client connection, dial attempts with their network
and destination, dispatch to a user-supplied handler, and task submissions
for the CONNECT relay directions and the ASSOCIATE client-to-destination
loop. -/
inductive Ev where
  | reply (code : Nat)
  | replyFail (code : Nat)
  | dialAttempt (network : String) (dest : AddrSpec)
  | userHandled
  | proxyStarted
  | clientLoopStarted
deriving Repr, DecidableEq

/-- Outcome of one call to the injectable dial function: the connection's
locally-bound address on success, or the error message. -/
inductive DialResult where
  | ok (localAddr : GoAddr)
  | err (msg : String)
deriving Repr, DecidableEq

/-- Outcome of one `Read` on the original request stream in the ASSOCIATE
foreground loop (request.go line 308). -/
inductive FgRead where
  | ok (n : Nat)
  | err (msg : String)
deriving Repr, DecidableEq

/-- The ASSOCIATE foreground loop (request.go lines 307-314) over a finite
stream of read outcomes: bytes read are discarded; a read error whose text
contains "use of closed network connection" is returned; every other
outcome (success or other error) just continues the loop.  `none` means the
loop is still running when the modelled outcomes are exhausted. -/
def assocForeground : List FgRead → Option String
  | [] => none
  | .ok _ :: rest => assocForeground rest
  | .err m :: rest =>
    if goContains m "use of closed network connection" then some m
    else assocForeground rest

/-- The view of a `Request` a command handler works on: by dispatch time the
pipeline has set `DestAddr` (request.go line 86), so it is no longer
optional. -/
structure HReq where
  header : Header
  DestAddr : AddrSpec
  RawDestAddr : AddrSpec
deriving Repr, DecidableEq

/-- The `Server` collaborators consumed by request.go, as oracles (spec,
section 6): resolver, rewriter, rule engine, dial function (indexed by call
number), client-connection write outcomes (indexed by write number), the
first-finished CONNECT relay direction's error, whether the UDP dial
produced a `*net.UDPConn`, the `net.ListenUDP` outcome, the foreground read
stream of ASSOCIATE, and the optional user handler overrides. -/
structure Server where
  resolve : String → Except String (List Nat)
  rewriter : Option (Request → AddrSpec)
  allow : Request → Bool
  dial : Nat → DialResult
  write : Nat → Option String
  proxyErr : Option String
  dialIsUDP : Bool
  listen : Except String GoAddr
  fgReads : List FgRead
  userConnectHandle : Option (Except PErr Unit)
  userBindHandle : Option (Except PErr Unit)
  userAssociateHandle : Option (Except PErr Unit)

/-- The dial-error classification duplicated verbatim in `handleConnect`
(request.go lines 137-143) and `handleAssociate` (lines 190-196): start from
HostUnreachable, upgrade to ConnectionRefused if the message contains
"refused", else to NetworkUnreachable if it contains "network is
unreachable". -/
def classifyDialError (msg : String) : Nat :=
  if goContains msg "refused" then RepConnectionRefused
  else if goContains msg "network is unreachable" then RepNetworkUnreachable
  else RepHostUnreachable

/-- `handleConnect` (request.go lines 127-168).  The dial is performed once
with network "tcp"; on dial error the classified reply is sent and a wrapped
connect-failure error returned (or the reply-write failure if that send
fails); on success a Success reply carrying the connection's local address
is sent and the two relay directions are started, the handler returning the
first-finished direction's error.  `none` as result would mean the handler
is still blocked, which cannot happen here. -/
def handleConnect (s : Server) (req : HReq) :
    List Ev × Option (Except PErr Unit) :=
  match s.dial 0 with
  | .err msg =>
    let resp := classifyDialError msg
    match s.write 0 with
    | some w =>
      ([.dialAttempt "tcp" req.DestAddr, .replyFail resp],
       some (.error (.replyWriteFailed w)))
    | none =>
      ([.dialAttempt "tcp" req.DestAddr, .reply resp],
       some (.error (.connectFailed req.RawDestAddr msg)))
  | .ok la =>
    match sendReplyTo (s.write 0) req.header RepSuccess (some la) with
    | .error e =>
      ([.dialAttempt "tcp" req.DestAddr, .replyFail RepSuccess],
       some (.error (.replyWriteFailed e)))
    | .ok _ =>
      ([.dialAttempt "tcp" req.DestAddr, .reply RepSuccess,
        .proxyStarted, .proxyStarted],
       some (match s.proxyErr with
             | none => .ok ()
             | some e => .error (.relayErr e)))

/-- `handleBind` (request.go lines 171-177): reply CommandNotSupported and
return nil. -/
def handleBind (s : Server) (_req : HReq) :
    List Ev × Option (Except PErr Unit) :=
  match s.write 0 with
  | some w => ([.replyFail RepCommandNotSupported],
               some (.error (.replyWriteFailed w)))
  | none => ([.reply RepCommandNotSupported], some (.ok ()))

/-- `handleAssociate` (request.go lines 180-315).  Same dial-error
classification as CONNECT but over network "udp"; then the `*net.UDPConn`
assertion (ServerFailure + error on failure), the UDP bind (ServerFailure +
error on failure), the Success reply with the bind socket's local address,
submission of the client-to-destination loop (modelled standalone as
`clientLoop`), and the foreground closed-connection watch, whose error is
returned.  `none` means the foreground loop is still blocked reading. -/
def handleAssociate (s : Server) (req : HReq) :
    List Ev × Option (Except PErr Unit) :=
  match s.dial 0 with
  | .err msg =>
    let resp := classifyDialError msg
    match s.write 0 with
    | some w =>
      ([.dialAttempt "udp" req.DestAddr, .replyFail resp],
       some (.error (.replyWriteFailed w)))
    | none =>
      ([.dialAttempt "udp" req.DestAddr, .reply resp],
       some (.error (.connectFailed req.RawDestAddr msg)))
  | .ok _la =>
    if s.dialIsUDP = false then
      match s.write 0 with
      | some w =>
        ([.dialAttempt "udp" req.DestAddr, .replyFail RepServerFailure],
         some (.error (.replyWriteFailed w)))
      | none =>
        ([.dialAttempt "udp" req.DestAddr, .reply RepServerFailure],
         some (.error .dialUdpInvalid))
    else
      match s.listen with
      | .error e =>
        match s.write 0 with
        | some w =>
          ([.dialAttempt "udp" req.DestAddr, .replyFail RepServerFailure],
           some (.error (.replyWriteFailed w)))
        | none =>
          ([.dialAttempt "udp" req.DestAddr, .reply RepServerFailure],
           some (.error (.listenFailed e)))
      | .ok bindAddr =>
        match sendReplyTo (s.write 0) req.header RepSuccess (some bindAddr) with
        | .error e =>
          ([.dialAttempt "udp" req.DestAddr, .replyFail RepSuccess],
           some (.error (.replyWriteFailed e)))
        | .ok _ =>
          ([.dialAttempt "udp" req.DestAddr, .reply RepSuccess,
            .clientLoopStarted],
           match assocForeground s.fgReads with
           | some m => some (.error (.relayErr m))
           | none => none)

/-- Number of dial attempts recorded in an event list. -/
def countDials (evs : List Ev) : Nat :=
  (evs.filter fun e =>
    match e with
    | .dialAttempt _ _ => true
    | _ => false).length

/-- One iteration's external interactions in the ASSOCIATE
client-to-destination loop (request.go lines 244-300): either
`bindLn.ReadFrom` failed with some message, or it yielded a datagram from
source address `src` (its Go `String()` form) whose `Packet.Parse` outcome
is `parse` (`some data` = parsed, with `pk.Data = data`) and whose
subsequent `targetUDP.Write` would succeed iff `writeOk`. -/
inductive UdpEv where
  | readErr (msg : String)
  | dgram (src : String) (parse : Option (List Nat)) (writeOk : Bool)
deriving Repr, DecidableEq

/-- State of the client-to-destination loop: `conns` is the key set of the
`sync.Map` session table, `spawned` the log of return-path reader tasks
submitted (in order), `sent` the payloads written to the destination
socket. -/
structure LoopSt where
  conns : List String
  spawned : List String
  sent : List (List Nat)
deriving Repr, DecidableEq

/-- Why the client-to-destination loop returned. -/
inductive StopReason where
  | closedRead (msg : String)
  | writeFailed
deriving Repr, DecidableEq

/-- One iteration of the client-to-destination loop (request.go lines
244-300): a read error returns only when its text contains "use of closed
network connection", otherwise the loop continues; a datagram that fails to
parse is skipped; a parsed datagram first does the `LoadOrStore`
check-and-insert — spawning a return-path task iff the source address was
absent — and then writes the payload to the destination, returning on write
failure.  `Sum.inl` is "continue with this state", `Sum.inr` is "return". -/
def clientStep (st : LoopSt) (ev : UdpEv) : LoopSt ⊕ (LoopSt × StopReason) :=
  match ev with
  | .readErr m =>
    if goContains m "use of closed network connection" then
      .inr (st, .closedRead m)
    else .inl st
  | .dgram _src none _ => .inl st
  | .dgram src (some data) writeOk =>
    let st1 :=
      if src ∈ st.conns then st
      else { st with conns := st.conns ++ [src], spawned := st.spawned ++ [src] }
    if writeOk then .inl { st1 with sent := st1.sent ++ [data] }
    else .inr (st1, .writeFailed)

/-- The client-to-destination loop folded over a finite stream of events;
`none` as second component means the loop is still running after them. -/
def clientLoop (st : LoopSt) : List UdpEv → LoopSt × Option StopReason
  | [] => (st, none)
  | ev :: rest =>
    match clientStep st ev with
    | .inl st1 => clientLoop st1 rest
    | .inr (st1, r) => (st1, some r)

/-- The post-step state of `clientStep`, whether the loop continues or
returns. -/
def stepSt (st : LoopSt) (ev : UdpEv) : LoopSt :=
  match clientStep st ev with
  | .inl s1 => s1
  | .inr (s1, _) => s1

/-- Whether `clientStep` ends the loop on this event. -/
def stepStops (st : LoopSt) (ev : UdpEv) : Bool :=
  match clientStep st ev with
  | .inl _ => false
  | .inr _ => true

/-- The resolution step of `handleRequest` (request.go lines 72-83) as a
state transformer.  `dest` is the same pointer as `req.RawDestAddr`, so the
assignment `dest.IP = addr` on line 82 mutates the pointee of
`RawDestAddr`: on resolver success the request's raw destination IP is
overwritten in place.  On resolver failure the request is unchanged (that
path aborts). -/
def pipeReq1 (s : Server) (req : Request) : Request :=
  if req.RawDestAddr.FQDN = "" then req
  else
    match s.resolve req.RawDestAddr.FQDN with
    | .error _ => req
    | .ok addr => { req with RawDestAddr := { req.RawDestAddr with IP := addr } }

/-- Line 86: `req.DestAddr = req.RawDestAddr` — the working destination
starts as an alias of the (possibly resolved) raw destination. -/
def pipeReq2 (s : Server) (req : Request) : Request :=
  { pipeReq1 s req with DestAddr := some (pipeReq1 s req).RawDestAddr }

/-- Lines 87-89: if a rewriter is configured, its returned address replaces
`DestAddr` wholesale (a fresh pointer; `RawDestAddr` is untouched). -/
def pipeReq3 (s : Server) (req : Request) : Request :=
  match s.rewriter with
  | none => pipeReq2 s req
  | some rw => { pipeReq2 s req with DestAddr := some (rw (pipeReq2 s req)) }

/-- Dispatch on the command (request.go lines 102-123), checking the
user-supplied handler overrides first.  By this point the pipeline has set
`DestAddr` (line 86), so `getD` never takes its default. -/
def dispatch (s : Server) (r3 : Request) :
    Request × List Ev × Option (Except PErr Unit) :=
  let hreq : HReq :=
    { header := r3.header, DestAddr := r3.DestAddr.getD r3.RawDestAddr,
      RawDestAddr := r3.RawDestAddr }
  if r3.header.Command = CommandConnect then
    match s.userConnectHandle with
    | some r => (r3, [.userHandled], some r)
    | none => let p := handleConnect s hreq; (r3, p.1, p.2)
  else if r3.header.Command = CommandBind then
    match s.userBindHandle with
    | some r => (r3, [.userHandled], some r)
    | none => let p := handleBind s hreq; (r3, p.1, p.2)
  else if r3.header.Command = CommandAssociate then
    match s.userAssociateHandle with
    | some r => (r3, [.userHandled], some r)
    | none => let p := handleAssociate s hreq; (r3, p.1, p.2)
  else
    match s.write 0 with
    | some w => (r3, [.replyFail RepCommandNotSupported],
                 some (.error (.replyWriteFailed w)))
    | none => (r3, [.reply RepCommandNotSupported],
               some (.error (.unsupportedCommand r3.header.Command)))

/-- Steps 2-5 of the pipeline once resolution is behind us: alias, rewrite,
rule check (request.go lines 92-98: on deny send RuleFailure and return the
blocked-destination error, the reply-write failure taking precedence), then
dispatch. -/
def handleRequestAuth (s : Server) (req : Request) :
    Request × List Ev × Option (Except PErr Unit) :=
  if s.allow (pipeReq3 s req) then dispatch s (pipeReq3 s req)
  else
    match s.write 0 with
    | some w => (pipeReq3 s req, [.replyFail RepRuleFailure],
                 some (.error (.replyWriteFailed w)))
    | none => (pipeReq3 s req, [.reply RepRuleFailure],
               some (.error (.ruleBlocked (pipeReq3 s req).RawDestAddr)))

/-- `handleRequest` (request.go lines 68-124).  Returns the final request
state (the Go code mutates `req` through pointers), the events, and the
result; `none` as result means a handler is still blocked. -/
def handleRequest (s : Server) (req : Request) :
    Request × List Ev × Option (Except PErr Unit) :=
  if req.RawDestAddr.FQDN = "" then handleRequestAuth s req
  else
    match s.resolve req.RawDestAddr.FQDN with
    | .error e =>
      match s.write 0 with
      | some w => (req, [.replyFail RepHostUnreachable],
                   some (.error (.replyWriteFailed w)))
      | none => (req, [.reply RepHostUnreachable],
                 some (.error (.resolveFailed req.RawDestAddr.FQDN e)))
    | .ok _ => handleRequestAuth s req

/-- One interaction of Go `io.CopyBuffer` (platform, modelled from its
documented behavior) with the source and destination: a read that returned
data followed by the write of that data (whose outcome is `werr`), a clean
end of stream, or a read error.  A read returning both data and an error is
two consecutive events. -/
inductive IoEv where
  | xfer (data : List Nat) (werr : Option String)
  | eof
  | rerr (msg : String)
deriving Repr, DecidableEq

/-- Go `io.CopyBuffer` over the interaction stream: chunks are copied in
order until end of stream, a read error, or a write error; the first
terminal event ends the copy and later events never happen.  Returns the
successfully written chunks and the copy's error (`none` on clean EOF; the
chunk a failed write was attempting is not counted). -/
def copyBuffer : List IoEv → List (List Nat) × Option String
  | [] => ([], none)
  | .xfer d none :: rest =>
    let r := copyBuffer rest
    (d :: r.1, r.2)
  | .xfer _ (some w) :: _ => ([], some w)
  | .eof :: _ => ([], none)
  | .rerr m :: _ => ([], some m)

/-- Environment of one `Proxy` call: the copy's interaction stream and
whether the destination implements the `closeWriter` half-close
interface. -/
structure ProxyEnv where
  events : List IoEv
  dstCloseWriter : Bool
deriving Repr, DecidableEq

/-- Everything observable about one `Proxy` call: buffer-pool gets/puts,
whether `CloseWrite` was invoked, the chunks copied, and the returned
error. -/
structure ProxyTrace where
  poolGets : Nat
  poolPuts : Nat
  closeWriteCalled : Bool
  copied : List (List Nat)
  result : Option String
deriving Repr, DecidableEq

/-- `Proxy` (request.go lines 375-383): borrow one buffer from the pool,
run `io.CopyBuffer`, return the buffer via `defer` on every exit path,
half-close the destination iff it implements `closeWriter`, and return the
copy's error. -/
def Proxy (env : ProxyEnv) : ProxyTrace :=
  let r := copyBuffer env.events
  { poolGets := 1
    poolPuts := 1
    closeWriteCalled := env.dstCloseWriter
    copied := r.1
    result := r.2 }

/-- Concrete destination used by witnesses: 10.0.0.1:80. -/
def wAddr : AddrSpec := { FQDN := "", IP := [10, 0, 0, 1], Port := 80 }

/-- Concrete request header used by witnesses (a CONNECT request). -/
def wHeader : Header :=
  { Version := 5, Command := 1, addrType := 1, Address := wAddr }

/-- Concrete handler-view request used by witnesses. -/
def wHReq : HReq := { header := wHeader, DestAddr := wAddr, RawDestAddr := wAddr }

/-- Concrete server whose dial always fails with a refused-connection
message and whose reply writes succeed. -/
def wServerRefused : Server :=
  { resolve := fun _ => .ok [1, 2, 3, 4]
    rewriter := none
    allow := fun _ => true
    dial := fun _ => .err "connection refused"
    write := fun _ => none
    proxyErr := none
    dialIsUDP := true
    listen := .ok (.udp [127, 0, 0, 1] 4000)
    fgReads := []
    userConnectHandle := none
    userBindHandle := none
    userAssociateHandle := none }

/-- C1: on a dial error, both the CONNECT and the ASSOCIATE handler dial
exactly once (no retry), send the reply classified from the error text —
"refused" giving ConnectionRefused, else "network is unreachable" giving
NetworkUnreachable, else HostUnreachable — and return the wrapped
connect-failure error (or the reply-write failure when that send fails). -/
theorem connect_associate_dial_error_classification
    (s : Server) (req : HReq) (msg : String) (hd : s.dial 0 = .err msg) :
    countDials (handleConnect s req).1 = 1 ∧
    countDials (handleAssociate s req).1 = 1 ∧
    (s.write 0 = none →
      handleConnect s req =
        ([Ev.dialAttempt "tcp" req.DestAddr, Ev.reply (classifyDialError msg)],
         some (.error (.connectFailed req.RawDestAddr msg))) ∧
      handleAssociate s req =
        ([Ev.dialAttempt "udp" req.DestAddr, Ev.reply (classifyDialError msg)],
         some (.error (.connectFailed req.RawDestAddr msg)))) ∧
    (∀ w, s.write 0 = some w →
      (handleConnect s req).2 = some (.error (.replyWriteFailed w)) ∧
      (handleAssociate s req).2 = some (.error (.replyWriteFailed w))) ∧
    (goContains msg "refused" = true →
      classifyDialError msg = RepConnectionRefused) ∧
    (goContains msg "refused" = false →
      goContains msg "network is unreachable" = true →
      classifyDialError msg = RepNetworkUnreachable) ∧
    (goContains msg "refused" = false →
      goContains msg "network is unreachable" = false →
      classifyDialError msg = RepHostUnreachable) := by
  refine ⟨?_, ?_, ?_, ?_, ?_, ?_, ?_⟩
  · cases hw : s.write 0 <;> simp [handleConnect, hd, hw, countDials]
  · cases hw : s.write 0 <;> simp [handleAssociate, hd, hw, countDials]
  · intro hw
    constructor <;> simp [handleConnect, handleAssociate, hd, hw]
  · intro w hw
    constructor <;> simp [handleConnect, handleAssociate, hd, hw]
  · intro h; simp [classifyDialError, h]
  · intro h1 h2; simp [classifyDialError, h1, h2]
  · intro h1 h2; simp [classifyDialError, h1, h2]

/-- Witness for C1 at a concrete refused dial: one dial attempt, the
ConnectionRefused reply, and the wrapped error. -/
theorem connect_associate_dial_error_classification_witness :
    countDials (handleConnect wServerRefused wHReq).1 = 1 ∧
    handleConnect wServerRefused wHReq =
      ([Ev.dialAttempt "tcp" wAddr, Ev.reply RepConnectionRefused],
       some (.error (.connectFailed wAddr "connection refused"))) ∧
    classifyDialError "connection refused" = RepConnectionRefused := by
  have h := connect_associate_dial_error_classification wServerRefused wHReq
    "connection refused" rfl
  refine ⟨h.1, ?_, h.2.2.2.2.1 (by decide)⟩
  have h2 := (h.2.2.1 rfl).1
  have hc : classifyDialError "connection refused" = RepConnectionRefused :=
    h.2.2.2.2.1 (by decide)
  rw [hc] at h2
  exact h2

/-- Concrete parse oracle for witnesses: succeeds with an unsupported
command (9) and two bytes of trailing stream. -/
def wParseBad : List Nat → Except String (Header × List Nat) :=
  fun _ => .ok ({ wHeader with Command := 9 }, [7, 7])

/-- Concrete parse oracle for witnesses: succeeds with a CONNECT header and
two bytes of trailing stream. -/
def wParseGood : List Nat → Except String (Header × List Nat) :=
  fun _ => .ok (wHeader, [7, 7])

/-- C5: `NewRequest` propagates codec failures, rejects any parsed command
outside CONNECT(1)/BIND(2)/ASSOCIATE(3) with an error (so such a request
never reaches the pipeline), and on success returns a request whose
`Reader` is the stream left over after the header and whose `RawDestAddr`
is the parsed destination address. -/
theorem NewRequest_command_gate :
    (∀ parse buf hd rest,
      parse buf = .ok (hd, rest) →
      ((hd.Command ≠ CommandConnect ∧ hd.Command ≠ CommandBind ∧
          hd.Command ≠ CommandAssociate) →
        NewRequest parse buf =
          .error ("unrecognized command[" ++ toString hd.Command ++ "]")) ∧
      ((hd.Command = CommandConnect ∨ hd.Command = CommandBind ∨
          hd.Command = CommandAssociate) →
        NewRequest parse buf =
          .ok { header := hd, DestAddr := none, Reader := rest,
                RawDestAddr := hd.Address })) ∧
    (∀ parse buf e, parse buf = .error e → NewRequest parse buf = .error e) := by
  constructor
  · intro parse buf hd rest hp
    constructor
    · intro hcmd
      simp [NewRequest, hp, hcmd]
    · intro hcmd
      have hnot : ¬(hd.Command ≠ CommandConnect ∧ hd.Command ≠ CommandBind ∧
          hd.Command ≠ CommandAssociate) := by
        rcases hcmd with h | h | h <;> simp [h]
      simp [NewRequest, hp, hnot]
  · intro parse buf e hp
    simp [NewRequest, hp]

/-- Witness for C5: the command-9 header is rejected, the CONNECT header
yields the request with the remaining stream and the parsed address. -/
theorem NewRequest_command_gate_witness :
    (∃ e, NewRequest wParseBad [] = .error e) ∧
    NewRequest wParseGood [] =
      .ok { header := wHeader, DestAddr := none, Reader := [7, 7],
            RawDestAddr := wHeader.Address } := by
  refine ⟨⟨_, (NewRequest_command_gate.1 wParseBad []
    { wHeader with Command := 9 } [7, 7] rfl).1 (by decide)⟩, ?_⟩
  exact (NewRequest_command_gate.1 wParseGood [] wHeader [7, 7] rfl).2
    (Or.inl rfl)

/-- C4: `SendReply` with no bound address writes an IPv4-typed reply with
the zero address and port 0; with one, the reply is the encoding switch
applied to the derived spec — FQDN gives domain type, else a 4-byte IP form
gives IPv4, else a 16-byte form gives IPv6, else a formatting error — and
an address that is neither TCP nor UDP is defaulted to the zero IPv4
address and port 0 rather than failing. -/
theorem SendReply_encoding :
    (∀ head resp, SendReply head resp none =
      .ok { head with
            Command := resp
            addrType := ATYPIPv4
            Address := { head.Address with IP := [0, 0, 0, 0], Port := 0 } }) ∧
    (∀ head resp a, SendReply head resp (some a) =
      encodeBound { head with Command := resp } (addrSpecOf a)) ∧
    (∀ head spec, spec.FQDN ≠ "" →
      encodeBound head spec =
        .ok { head with
              addrType := ATYPDomain
              Address := { head.Address with
                           FQDN := spec.FQDN, Port := spec.Port } }) ∧
    (∀ head spec ip4, spec.FQDN = "" → goTo4 spec.IP = some ip4 →
      encodeBound head spec =
        .ok { head with
              addrType := ATYPIPv4
              Address := { head.Address with IP := ip4, Port := spec.Port } }) ∧
    (∀ head spec ip16, spec.FQDN = "" → goTo4 spec.IP = none →
        goTo16 spec.IP = some ip16 →
      encodeBound head spec =
        .ok { head with
              addrType := ATYPIPV6
              Address := { head.Address with IP := ip16, Port := spec.Port } }) ∧
    (∀ head spec, spec.FQDN = "" → goTo4 spec.IP = none →
        goTo16 spec.IP = none →
      encodeBound head spec = .error "failed to format address") ∧
    (addrSpecOf GoAddr.other = { FQDN := "", IP := [0, 0, 0, 0], Port := 0 }) ∧
    (∀ head resp, SendReply head resp (some GoAddr.other) =
      .ok { head with
            Command := resp
            addrType := ATYPIPv4
            Address := { head.Address with
                         IP := [0, 0, 0, 0], Port := 0 } }) := by
  refine ⟨?_, ?_, ?_, ?_, ?_, ?_, rfl, ?_⟩
  · intro head resp; rfl
  · intro head resp a; rfl
  · intro head spec h; simp [encodeBound, h]
  · intro head spec ip4 hf h4; simp [encodeBound, hf, h4]
  · intro head spec ip16 hf h4 h16; simp [encodeBound, hf, h4, h16]
  · intro head spec hf h4 h16; simp [encodeBound, hf, h4, h16]
  · intro head resp
    show encodeBound { head with Command := resp } (addrSpecOf GoAddr.other) = _
    simp [encodeBound, addrSpecOf, goTo4]

/-- Witness for C4: each branch of the encoding exercised at a concrete
input — no address, a domain-carrying spec, a 4-byte IP, a 16-byte IP, an
unformattable empty IP, and a non-TCP/non-UDP address value. -/
theorem SendReply_encoding_witness :
    SendReply wHeader 4 none =
      .ok { wHeader with
            Command := 4
            addrType := ATYPIPv4
            Address := { wHeader.Address with IP := [0, 0, 0, 0], Port := 0 } } ∧
    encodeBound wHeader { FQDN := "example.com", IP := [], Port := 9 } =
      .ok { wHeader with
            addrType := ATYPDomain
            Address := { wHeader.Address with
                         FQDN := "example.com", Port := 9 } } ∧
    encodeBound wHeader { FQDN := "", IP := [10, 0, 0, 1], Port := 80 } =
      .ok { wHeader with
            addrType := ATYPIPv4
            Address := { wHeader.Address with
                         IP := [10, 0, 0, 1], Port := 80 } } ∧
    encodeBound wHeader
        { FQDN := "",
          IP := [32, 1, 13, 184, 0, 0, 0, 0, 0, 0, 0, 0, 0, 0, 0, 1],
          Port := 443 } =
      .ok { wHeader with
            addrType := ATYPIPV6
            Address := { wHeader.Address with
                         IP := [32, 1, 13, 184, 0, 0, 0, 0, 0, 0, 0, 0, 0, 0,
                                0, 1],
                         Port := 443 } } ∧
    encodeBound wHeader { FQDN := "", IP := [], Port := 0 } =
      .error "failed to format address" ∧
    SendReply wHeader 0 (some GoAddr.other) =
      .ok { wHeader with
            Command := 0
            addrType := ATYPIPv4
            Address := { wHeader.Address with
                         IP := [0, 0, 0, 0], Port := 0 } } := by
  refine ⟨SendReply_encoding.1 wHeader 4, ?_, ?_, ?_, ?_,
    SendReply_encoding.2.2.2.2.2.2.2 wHeader 0⟩
  · exact SendReply_encoding.2.2.1 wHeader _ (by decide)
  · exact SendReply_encoding.2.2.2.1 wHeader _ [10, 0, 0, 1] (by decide)
      (by decide)
  · exact SendReply_encoding.2.2.2.2.1 wHeader _ _ (by decide) (by decide)
      (by decide)
  · exact SendReply_encoding.2.2.2.2.2.1 wHeader _ (by decide) (by decide)
      (by decide)

/-- C10: the bound-address spec `SendReply` derives always has an empty
FQDN, so the domain branch of the encoding switch is unreachable: every
successfully written reply with a bound address is typed IPv4 or IPv6,
never domain. -/
theorem SendReply_bound_never_domain :
    (∀ a, (addrSpecOf a).FQDN = "") ∧
    (∀ head resp a hd, SendReply head resp (some a) = .ok hd →
      (hd.addrType = ATYPIPv4 ∨ hd.addrType = ATYPIPV6) ∧
      hd.addrType ≠ ATYPDomain) := by
  constructor
  · intro a; cases a <;> rfl
  · intro head resp a hd h
    have hf : (addrSpecOf a).FQDN = "" := by cases a <;> rfl
    simp only [SendReply, encodeBound, hf, ne_eq, not_true_eq_false,
      if_false] at h
    rcases h4 : goTo4 (addrSpecOf a).IP with _ | ip4
    · rcases h16 : goTo16 (addrSpecOf a).IP with _ | ip16
      · simp [h4, h16] at h
      · simp only [h4, h16] at h
        cases h
        exact ⟨Or.inr rfl, by simp [ATYPIPV6, ATYPDomain]⟩
    · simp only [h4] at h
      cases h
      exact ⟨Or.inl rfl, by simp [ATYPIPv4, ATYPDomain]⟩

/-- Witness for C10: a concrete UDP bound address produces an IPv4-typed
reply, not a domain-typed one. -/
theorem SendReply_bound_never_domain_witness :
    ((addrSpecOf (GoAddr.udp [127, 0, 0, 1] 4000)).FQDN = "") ∧
    ((SendReply wHeader 0 (some (GoAddr.udp [127, 0, 0, 1] 4000))).toOption.map
        Header.addrType = some ATYPIPv4) ∧
    (∀ hd, SendReply wHeader 0 (some (GoAddr.udp [127, 0, 0, 1] 4000)) =
        .ok hd → hd.addrType ≠ ATYPDomain) := by
  refine ⟨SendReply_bound_never_domain.1 (GoAddr.udp [127, 0, 0, 1] 4000),
    by decide, ?_⟩
  intro hd h
  exact (SendReply_bound_never_domain.2 wHeader 0
    (GoAddr.udp [127, 0, 0, 1] 4000) hd h).2

/-- Every branch of `dispatch` returns the request state unchanged. -/
lemma dispatch_fst (s : Server) (r3 : Request) : (dispatch s r3).1 = r3 := by
  unfold dispatch
  split <;> (try split) <;> (try split) <;> (try split) <;> rfl

/-- `handleRequestAuth` leaves the request in the post-rewrite state. -/
lemma handleRequestAuth_fst (s : Server) (req : Request) :
    (handleRequestAuth s req).1 = pipeReq3 s req := by
  unfold handleRequestAuth
  split
  · exact dispatch_fst s _
  · split <;> rfl

/-- The denial branch of `handleRequestAuth`, written out. -/
lemma handleRequestAuth_deny (s : Server) (req : Request)
    (hdeny : s.allow (pipeReq3 s req) = false) :
    handleRequestAuth s req =
      (pipeReq3 s req,
       match s.write 0 with
       | some w => ([Ev.replyFail RepRuleFailure],
                    some (.error (.replyWriteFailed w)))
       | none => ([Ev.reply RepRuleFailure],
                  some (.error (.ruleBlocked
                    (pipeReq3 s req).RawDestAddr)))) := by
  unfold handleRequestAuth
  rw [if_neg (by simp [hdeny])]
  cases s.write 0 <;> rfl

/-- The rewrite step never touches the raw destination. -/
lemma pipeReq3_raw (s : Server) (req : Request) :
    (pipeReq3 s req).RawDestAddr = (pipeReq1 s req).RawDestAddr := by
  cases hrw : s.rewriter <;> simp [pipeReq3, pipeReq2, hrw]

/-- The resolution step preserves the raw destination's FQDN. -/
lemma pipeReq1_FQDN (s : Server) (req : Request) :
    (pipeReq1 s req).RawDestAddr.FQDN = req.RawDestAddr.FQDN := by
  unfold pipeReq1
  split
  · rfl
  · split <;> rfl

/-- The resolution step preserves the raw destination's port. -/
lemma pipeReq1_Port (s : Server) (req : Request) :
    (pipeReq1 s req).RawDestAddr.Port = req.RawDestAddr.Port := by
  unfold pipeReq1
  split
  · rfl
  · split <;> rfl

/-- Without an FQDN the resolution step is the identity. -/
lemma pipeReq1_empty (s : Server) (req : Request)
    (h : req.RawDestAddr.FQDN = "") : pipeReq1 s req = req := by
  simp [pipeReq1, h]

/-- With an FQDN and a successful resolver, the resolution step overwrites
the raw destination's IP in place. -/
lemma pipeReq1_resolved (s : Server) (req : Request) (ip : List Nat)
    (hne : req.RawDestAddr.FQDN ≠ "")
    (h : s.resolve req.RawDestAddr.FQDN = .ok ip) :
    pipeReq1 s req =
      { req with RawDestAddr := { req.RawDestAddr with IP := ip } } := by
  simp [pipeReq1, hne, h]

/-- The final request state of `handleRequest` carries the raw destination
produced by the resolution step, on every path. -/
lemma handleRequest_raw (s : Server) (req : Request) :
    (handleRequest s req).1.RawDestAddr = (pipeReq1 s req).RawDestAddr := by
  by_cases hf : req.RawDestAddr.FQDN = ""
  · rw [show (handleRequest s req) = handleRequestAuth s req by
      simp [handleRequest, hf]]
    rw [handleRequestAuth_fst, pipeReq3_raw]
  · unfold handleRequest
    rw [if_neg hf]
    cases hres : s.resolve req.RawDestAddr.FQDN with
    | error e =>
      have : pipeReq1 s req = req := by simp [pipeReq1, hf, hres]
      cases hw : s.write 0 <;> simp [hw, this]
    | ok ip =>
      rw [handleRequestAuth_fst, pipeReq3_raw]

/-- Counterexample to C2 as stated: with destination FQDN "example.com"
(empty IP) and a resolver returning 1.2.3.4, the `RawDestAddr` held when
the command handler is dispatched differs from the one `NewRequest`
returned — the resolution step wrote the resolved IP into it through the
`dest` alias (request.go line 82). -/
def wFqdnAddr : AddrSpec := { FQDN := "example.com", IP := [], Port := 80 }

/-- Concrete request whose destination is an FQDN (a BIND request, so the
pipeline terminates in the stub handler). -/
def wReqFqdn : Request :=
  { header := { Version := 5, Command := 2, addrType := 3, Address := wFqdnAddr }
    DestAddr := none
    Reader := []
    RawDestAddr := wFqdnAddr }

/-- Counterexample for C2: after the pipeline runs, `RawDestAddr` is no
longer the parsed value — its IP now holds the resolver's answer. -/
theorem raw_dest_immutable_counterexample :
    (handleRequest wServerRefused wReqFqdn).1.RawDestAddr ≠
      wReqFqdn.RawDestAddr ∧
    (handleRequest wServerRefused wReqFqdn).1.RawDestAddr =
      { FQDN := "example.com", IP := [1, 2, 3, 4], Port := 80 } := by
  constructor <;> decide

/-- C2 (amended): the pipeline never changes `RawDestAddr`'s FQDN or port,
and leaves it entirely unchanged when the destination carries no FQDN; when
it does and the resolver succeeds, exactly the IP field is overwritten in
place with the resolved address.  `DestAddr` starts as an alias of the
(possibly resolved) `RawDestAddr` and is only replaced wholesale by the
rewriter, which never touches `RawDestAddr`. -/
theorem raw_dest_frame_conditions (s : Server) (req : Request) :
    (handleRequest s req).1.RawDestAddr.FQDN = req.RawDestAddr.FQDN ∧
    (handleRequest s req).1.RawDestAddr.Port = req.RawDestAddr.Port ∧
    (req.RawDestAddr.FQDN = "" →
      (handleRequest s req).1.RawDestAddr = req.RawDestAddr) ∧
    (∀ ip, req.RawDestAddr.FQDN ≠ "" →
      s.resolve req.RawDestAddr.FQDN = .ok ip →
      (handleRequest s req).1.RawDestAddr =
        { req.RawDestAddr with IP := ip }) ∧
    (pipeReq2 s req).DestAddr = some (pipeReq2 s req).RawDestAddr ∧
    (s.rewriter = none →
      (pipeReq3 s req).DestAddr = some (pipeReq3 s req).RawDestAddr) ∧
    (∀ rw, s.rewriter = some rw →
      (pipeReq3 s req).DestAddr = some (rw (pipeReq2 s req)) ∧
      (pipeReq3 s req).RawDestAddr = (pipeReq2 s req).RawDestAddr) := by
  refine ⟨?_, ?_, ?_, ?_, ?_, ?_, ?_⟩
  · rw [handleRequest_raw]; exact pipeReq1_FQDN s req
  · rw [handleRequest_raw]; exact pipeReq1_Port s req
  · intro h; rw [handleRequest_raw, pipeReq1_empty s req h]
  · intro ip hne h; rw [handleRequest_raw, pipeReq1_resolved s req ip hne h]
  · simp [pipeReq2]
  · intro h; simp [pipeReq3, pipeReq2, h]
  · intro rw hrw; constructor <;> simp [pipeReq3, pipeReq2, hrw]

/-- Witness for the amended C2: the FQDN request's raw destination gets
exactly its IP replaced; a no-FQDN request is left untouched; with no
rewriter the working destination still aliases the raw one. -/
theorem raw_dest_frame_conditions_witness :
    (handleRequest wServerRefused wReqFqdn).1.RawDestAddr =
      { wReqFqdn.RawDestAddr with IP := [1, 2, 3, 4] } ∧
    (handleRequest wServerRefused
        { wReqFqdn with RawDestAddr := wAddr }).1.RawDestAddr = wAddr ∧
    (pipeReq3 wServerRefused wReqFqdn).DestAddr =
      some (pipeReq3 wServerRefused wReqFqdn).RawDestAddr := by
  refine ⟨(raw_dest_frame_conditions wServerRefused wReqFqdn).2.2.2.1
    [1, 2, 3, 4] (by decide) rfl, ?_, ?_⟩
  · exact (raw_dest_frame_conditions wServerRefused
      { wReqFqdn with RawDestAddr := wAddr }).2.2.1 rfl
  · exact (raw_dest_frame_conditions wServerRefused wReqFqdn).2.2.2.2.2.1 rfl

/-- Concrete denying server: the rule engine refuses every request. -/
def wServerDeny : Server := { wServerRefused with allow := fun _ => false }

/-- Concrete no-FQDN CONNECT request for the denial witness. -/
def wReq : Request :=
  { header := wHeader, DestAddr := none, Reader := [], RawDestAddr := wAddr }

/-- C6: when the authorization rule denies a request (and resolution got
past), the pipeline performs no dial attempt and dispatches no handler; it
sends exactly the RuleFailure reply and returns the blocked-destination
error, or the reply-write failure if that send fails. -/
theorem rule_denial_no_dial (s : Server) (req : Request)
    (hres : req.RawDestAddr.FQDN = "" ∨
      ∃ ip, s.resolve req.RawDestAddr.FQDN = .ok ip)
    (hdeny : s.allow (pipeReq3 s req) = false) :
    countDials (handleRequest s req).2.1 = 0 ∧
    Ev.userHandled ∉ (handleRequest s req).2.1 ∧
    (s.write 0 = none →
      (handleRequest s req).2.1 = [Ev.reply RepRuleFailure] ∧
      (handleRequest s req).2.2 =
        some (.error (.ruleBlocked (pipeReq3 s req).RawDestAddr))) ∧
    (∀ w, s.write 0 = some w →
      (handleRequest s req).2.1 = [Ev.replyFail RepRuleFailure] ∧
      (handleRequest s req).2.2 = some (.error (.replyWriteFailed w))) := by
  have hred : handleRequest s req = handleRequestAuth s req := by
    rcases hres with h | ⟨ip, h⟩
    · simp [handleRequest, h]
    · by_cases hf : req.RawDestAddr.FQDN = ""
      · simp [handleRequest, hf]
      · simp [handleRequest, hf, h]
  rw [hred, handleRequestAuth_deny s req hdeny]
  refine ⟨?_, ?_, ?_, ?_⟩
  · cases hw : s.write 0 <;> simp [hw, countDials]
  · cases hw : s.write 0 <;> simp [hw]
  · intro hw; simp [hw]
  · intro w hw; simp [hw]

/-- Witness for C6 at a concrete denied request: no dial, exactly the
RuleFailure reply, the blocked-destination error. -/
theorem rule_denial_no_dial_witness :
    countDials (handleRequest wServerDeny wReq).2.1 = 0 ∧
    (handleRequest wServerDeny wReq).2.1 = [Ev.reply RepRuleFailure] ∧
    (handleRequest wServerDeny wReq).2.2 =
      some (.error (.ruleBlocked wAddr)) := by
  have h := rule_denial_no_dial wServerDeny wReq (Or.inl rfl) rfl
  exact ⟨h.1, (h.2.2.1 rfl).1, (h.2.2.1 rfl).2⟩

/-- One step of the client-to-destination loop preserves "the session table
holds exactly the addresses a task was spawned for". -/
lemma stepSt_inv (st : LoopSt) (ev : UdpEv) (h : st.conns = st.spawned) :
    (stepSt st ev).conns = (stepSt st ev).spawned := by
  cases ev with
  | readErr m =>
    by_cases hm : goContains m "use of closed network connection" = true <;>
      simp [stepSt, clientStep, hm, h]
  | dgram src parse w =>
    cases parse with
    | none => simpa [stepSt, clientStep] using h
    | some d =>
      by_cases hs : src ∈ st.conns <;> cases w <;>
        simp [stepSt, clientStep, hs] <;> simp [h]

/-- One step never removes a session-table entry. -/
lemma stepSt_mono (st : LoopSt) (ev : UdpEv) :
    st.conns ⊆ (stepSt st ev).conns := by
  cases ev with
  | readErr m =>
    by_cases hm : goContains m "use of closed network connection" = true <;>
      simp [stepSt, clientStep, hm]
  | dgram src parse w =>
    cases parse with
    | none => simp [stepSt, clientStep]
    | some d =>
      by_cases hs : src ∈ st.conns <;> cases w <;>
        simp [stepSt, clientStep, hs, List.subset_append_left]

/-- One step keeps the spawn log duplicate-free: a task is only submitted
when the address was absent from the table. -/
lemma stepSt_nodup (st : LoopSt) (ev : UdpEv) (h : st.conns = st.spawned)
    (hn : st.spawned.Nodup) : (stepSt st ev).spawned.Nodup := by
  cases ev with
  | readErr m =>
    by_cases hm : goContains m "use of closed network connection" = true <;>
      simp [stepSt, clientStep, hm, hn]
  | dgram src parse w =>
    cases parse with
    | none => simpa [stepSt, clientStep] using hn
    | some d =>
      by_cases hs : src ∈ st.conns
      · cases w <;> simp [stepSt, clientStep, hs, hn]
      · have hsp : src ∉ st.spawned := h ▸ hs
        cases w <;> simp [stepSt, clientStep, hs, List.nodup_append, hn, hsp]

/-- Anything added to the spawn log by one step came from a successfully
parsed datagram handled by that step. -/
lemma stepSt_prov (st : LoopSt) (ev : UdpEv) (src : String)
    (h : src ∈ (stepSt st ev).spawned) :
    src ∈ st.spawned ∨ ∃ d w, ev = UdpEv.dgram src (some d) w := by
  cases ev with
  | readErr m =>
    by_cases hm : goContains m "use of closed network connection" = true <;>
      simp [stepSt, clientStep, hm] at h <;> exact Or.inl h
  | dgram s0 parse w =>
    cases parse with
    | none =>
      simp [stepSt, clientStep] at h
      exact Or.inl h
    | some d =>
      by_cases hs : s0 ∈ st.conns
      · cases w <;> simp [stepSt, clientStep, hs] at h <;> exact Or.inl h
      · cases w <;> simp [stepSt, clientStep, hs] at h <;>
          rcases h with h | h
        · exact Or.inl h
        · exact Or.inr ⟨d, false, by rw [h]⟩
        · exact Or.inl h
        · exact Or.inr ⟨d, true, by rw [h]⟩

/-- `clientLoop` recursion expressed through `stepSt`/`stepStops`. -/
lemma clientLoop_cons (st : LoopSt) (ev : UdpEv) (rest : List UdpEv) :
    (clientLoop st (ev :: rest)).1 =
      (if stepStops st ev then stepSt st ev
       else (clientLoop (stepSt st ev) rest).1) := by
  cases hstep : clientStep st ev with
  | inl st1 => simp [clientLoop, hstep, stepStops, stepSt]
  | inr p => simp [clientLoop, hstep, stepStops, stepSt]

/-- Loop-level invariant: starting from a state where the table equals the
spawn log, the final table still equals the final spawn log, duplicate
freedom is preserved, and every spawned address traces back to a parsed
datagram among the processed events. -/
lemma clientLoop_inv (evs : List UdpEv) : ∀ st : LoopSt,
    st.conns = st.spawned →
    ((clientLoop st evs).1.conns = (clientLoop st evs).1.spawned ∧
     (st.spawned.Nodup → (clientLoop st evs).1.spawned.Nodup) ∧
     (∀ src, src ∈ (clientLoop st evs).1.spawned →
       src ∈ st.spawned ∨ ∃ d w, UdpEv.dgram src (some d) w ∈ evs)) := by
  induction evs with
  | nil => exact fun st h => ⟨h, fun hn => hn, fun src hs => Or.inl hs⟩
  | cons ev rest ih =>
    intro st h
    rw [clientLoop_cons]
    by_cases hstop : stepStops st ev = true
    · rw [if_pos hstop]
      refine ⟨stepSt_inv st ev h, fun hn => stepSt_nodup st ev h hn, ?_⟩
      intro src hs
      rcases stepSt_prov st ev src hs with h1 | ⟨d, w, h1⟩
      · exact Or.inl h1
      · exact Or.inr ⟨d, w, by rw [h1]; exact List.mem_cons_self _ _⟩
    · rw [if_neg hstop]
      obtain ⟨ih1, ih2, ih3⟩ := ih (stepSt st ev) (stepSt_inv st ev h)
      refine ⟨ih1, fun hn => ih2 (stepSt_nodup st ev h hn), ?_⟩
      intro src hs
      rcases ih3 src hs with h1 | ⟨d, w, h1⟩
      · rcases stepSt_prov st ev src h1 with h2 | ⟨d, w, h2⟩
        · exact Or.inl h2
        · exact Or.inr ⟨d, w, by rw [h2]; exact List.mem_cons_self _ _⟩
      · exact Or.inr ⟨d, w, List.mem_cons_of_mem _ h1⟩

/-- Counterexample for C3 as stated: the first datagram from source "a"
fails to parse, the loop swallows it and continues, and no return-path
task is spawned for "a" — the spawn only happens at a later, successfully
parsed datagram, because `Packet.Parse` runs before `LoadOrStore`
(request.go lines 254-259). -/
theorem session_table_spawn_once_counterexample :
    (clientLoop ⟨[], [], []⟩ [UdpEv.dgram "a" none true]).2 = none ∧
    (clientLoop ⟨[], [], []⟩ [UdpEv.dgram "a" none true]).1.spawned = [] ∧
    (clientLoop ⟨[], [], []⟩
      [UdpEv.dgram "a" none true,
       UdpEv.dgram "a" (some [1]) true]).1.spawned = ["a"] := by
  refine ⟨rfl, rfl, rfl⟩

/-- C3 (amended): the check-and-insert is a single load-or-store — a
return-path task is submitted iff the source address's string form was not
already in the session table — performed on the first successfully parsed
datagram from that address; entries are never removed, so over a whole
session at most one task is ever spawned per distinct source address, the
table holds exactly the addresses spawned for, and every spawned address
stems from a parsed datagram. -/
theorem session_table_spawn_once (evs : List UdpEv) :
    (∀ st src data w,
      (stepSt st (UdpEv.dgram src (some data) w)).spawned =
        (if src ∈ st.conns then st.spawned else st.spawned ++ [src]) ∧
      (stepSt st (UdpEv.dgram src (some data) w)).conns =
        (if src ∈ st.conns then st.conns else st.conns ++ [src])) ∧
    (∀ st ev, st.conns ⊆ (stepSt st ev).conns) ∧
    (clientLoop ⟨[], [], []⟩ evs).1.spawned.Nodup ∧
    (clientLoop ⟨[], [], []⟩ evs).1.conns =
      (clientLoop ⟨[], [], []⟩ evs).1.spawned ∧
    (∀ src, src ∈ (clientLoop ⟨[], [], []⟩ evs).1.spawned →
      ∃ d w, UdpEv.dgram src (some d) w ∈ evs) := by
  obtain ⟨h1, h2, h3⟩ := clientLoop_inv evs ⟨[], [], []⟩ rfl
  refine ⟨?_, stepSt_mono, h2 List.nodup_nil, h1, ?_⟩
  · intro st src data w
    by_cases hs : src ∈ st.conns <;> cases w <;>
      simp [stepSt, clientStep, hs]
  · intro src hs
    rcases h3 src hs with h | h
    · simp at h
    · exact h

/-- Concrete event stream for the C3 witness: two parsed datagrams from the
same source and a non-fatal read error. -/
def wUdpEvs : List UdpEv :=
  [UdpEv.dgram "a" (some [1]) true, UdpEv.dgram "a" (some [2]) true,
   UdpEv.readErr "transient"]

/-- Witness for the amended C3: over `wUdpEvs` the source "a" is spawned
exactly once and stems from a parsed datagram. -/
theorem session_table_spawn_once_witness :
    (clientLoop ⟨[], [], []⟩ wUdpEvs).1.spawned.Nodup ∧
    (∃ d w, UdpEv.dgram "a" (some d) w ∈ wUdpEvs) ∧
    (clientLoop ⟨[], [], []⟩ wUdpEvs).1.spawned = ["a"] := by
  refine ⟨(session_table_spawn_once wUdpEvs).2.2.1,
    (session_table_spawn_once wUdpEvs).2.2.2.2 "a" (by decide), by decide⟩

/-- C7: a datagram that fails to parse never ends the client-to-destination
loop — the step leaves the state untouched and the loop just continues with
the remaining events — and the loop returns exactly on a read error whose
text contains "use of closed network connection" or on a failed write to
the destination socket. -/
theorem udp_loop_malformed_skipped (st : LoopSt) :
    (∀ src w rest, clientLoop st (UdpEv.dgram src none w :: rest) =
      clientLoop st rest) ∧
    (∀ src w, clientStep st (UdpEv.dgram src none w) = Sum.inl st) ∧
    (∀ ev, stepStops st ev = true ↔
      ((∃ m, ev = UdpEv.readErr m ∧
          goContains m "use of closed network connection" = true) ∨
       (∃ src d, ev = UdpEv.dgram src (some d) false))) := by
  refine ⟨?_, ?_, ?_⟩
  · intro src w rest; simp [clientLoop, clientStep]
  · intro src w; rfl
  · intro ev
    cases ev with
    | readErr m =>
      by_cases hm : goContains m "use of closed network connection" = true <;>
        simp [stepStops, clientStep, hm]
    | dgram src parse w =>
      cases parse with
      | none => simp [stepStops, clientStep]
      | some d => cases w <;> simp [stepStops, clientStep]

/-- C8: the foreground ASSOCIATE loop discards everything it reads and
returns an error exactly when a read failed with text containing "use of
closed network connection": any returned error has that form and did occur
as a read error; with no such read error the loop never returns; the first
closed-connection read error is returned; and on the handler's success path
its result is precisely this loop's outcome (still blocked when the loop
has not returned). -/
theorem associate_foreground_close_detection :
    (∀ evs m, assocForeground evs = some m →
      goContains m "use of closed network connection" = true ∧
      FgRead.err m ∈ evs) ∧
    (∀ evs, (∀ m, FgRead.err m ∈ evs →
        goContains m "use of closed network connection" = false) →
      assocForeground evs = none) ∧
    (∀ pre m post,
      (∀ k, FgRead.err k ∈ pre →
        goContains k "use of closed network connection" = false) →
      goContains m "use of closed network connection" = true →
      assocForeground (pre ++ FgRead.err m :: post) = some m) ∧
    (∀ s req la b hd, s.dial 0 = DialResult.ok la → s.dialIsUDP = true →
      s.listen = .ok b →
      sendReplyTo (s.write 0) req.header RepSuccess (some b) = .ok hd →
      (handleAssociate s req).2 =
        match assocForeground s.fgReads with
        | some m => some (.error (.relayErr m))
        | none => none) := by
  refine ⟨?_, ?_, ?_, ?_⟩
  · intro evs
    induction evs with
    | nil => intro m h; simp [assocForeground] at h
    | cons ev rest ih =>
      intro m h
      cases ev with
      | ok n =>
        have := ih m (by simpa [assocForeground] using h)
        exact ⟨this.1, List.mem_cons_of_mem _ this.2⟩
      | err k =>
        by_cases hk : goContains k "use of closed network connection" = true
        · simp [assocForeground, hk] at h
          subst h
          exact ⟨hk, List.mem_cons_self _ _⟩
        · have := ih m (by simpa [assocForeground, hk] using h)
          exact ⟨this.1, List.mem_cons_of_mem _ this.2⟩
  · intro evs
    induction evs with
    | nil => intro _; rfl
    | cons ev rest ih =>
      intro h
      cases ev with
      | ok n =>
        simpa [assocForeground] using
          ih fun m hm => h m (List.mem_cons_of_mem _ hm)
      | err k =>
        have hk := h k (List.mem_cons_self _ _)
        simpa [assocForeground, hk] using
          ih fun m hm => h m (List.mem_cons_of_mem _ hm)
  · intro pre
    induction pre with
    | nil => intro m post _ hm; simp [assocForeground, hm]
    | cons ev rest ih =>
      intro m post hpre hm
      cases ev with
      | ok n =>
        simpa [assocForeground] using
          ih m post (fun k hk => hpre k (List.mem_cons_of_mem _ hk)) hm
      | err k =>
        have hk := hpre k (List.mem_cons_self _ _)
        simpa [assocForeground, hk] using
          ih m post (fun k2 hk2 => hpre k2 (List.mem_cons_of_mem _ hk2)) hm
  · intro s req la b hd hdial hudp hlisten hreply
    simp [handleAssociate, hdial, hudp, hlisten, hreply]

/-- Concrete server for the C8 witness: UDP dial succeeds, bind succeeds,
the reply write succeeds, and the foreground reads see a success, a
non-fatal error, then a closed-connection error. -/
def wServerAssoc : Server :=
  { wServerRefused with
    dial := fun _ => .ok (GoAddr.udp [10, 0, 0, 9] 5555)
    fgReads := [FgRead.ok 5, FgRead.err "EOF",
                FgRead.err "read tcp: use of closed network connection"] }

/-- Witness for C8: the foreground loop returns the closed-connection read
error, and the handler's result is that error wrapped. -/
theorem associate_foreground_close_detection_witness :
    assocForeground wServerAssoc.fgReads =
      some "read tcp: use of closed network connection" ∧
    goContains "read tcp: use of closed network connection"
      "use of closed network connection" = true ∧
    (handleAssociate wServerAssoc wHReq).2 =
      some (.error (.relayErr
        "read tcp: use of closed network connection")) := by
  have h3 := associate_foreground_close_detection.2.2.1
    [FgRead.ok 5, FgRead.err "EOF"]
    "read tcp: use of closed network connection" []
    (by intro k hk; simp at hk; subst hk; decide) (by decide)
  have h3' : assocForeground wServerAssoc.fgReads =
      some "read tcp: use of closed network connection" := h3
  have h4 := associate_foreground_close_detection.2.2.2 wServerAssoc wHReq
    (GoAddr.udp [10, 0, 0, 9] 5555) (GoAddr.udp [127, 0, 0, 1] 4000) _
    rfl rfl rfl rfl
  refine ⟨h3', by decide, ?_⟩
  rw [h4, h3']

/-- A `copyBuffer` interaction that neither ends the stream nor fails:
a chunk read and written successfully. -/
def nonTerminal : IoEv → Bool
  | .xfer _ none => true
  | _ => false

/-- The chunks carried by a list of interactions. -/
def xferChunks (evs : List IoEv) : List (List Nat) :=
  evs.filterMap fun ev =>
    match ev with
    | .xfer d _ => some d
    | _ => none

/-- C9: `Proxy` borrows exactly one pooled buffer and returns it on its one
exit path, half-closes the destination exactly when it implements the
half-close interface, returns the copy's error, and the copy itself
transfers the successful chunks in order and stops at the first end of
stream, read error, or write error — interactions after a terminal one
never happen. -/
theorem proxy_relay_contract :
    (∀ env : ProxyEnv,
      (Proxy env).poolGets = 1 ∧ (Proxy env).poolPuts = 1 ∧
      (Proxy env).closeWriteCalled = env.dstCloseWriter ∧
      (Proxy env).result = (copyBuffer env.events).2 ∧
      (Proxy env).copied = (copyBuffer env.events).1) ∧
    (∀ pre post, pre.all nonTerminal = true →
      copyBuffer (pre ++ IoEv.eof :: post) = (xferChunks pre, none)) ∧
    (∀ pre m post, pre.all nonTerminal = true →
      copyBuffer (pre ++ IoEv.rerr m :: post) = (xferChunks pre, some m)) ∧
    (∀ pre d m post, pre.all nonTerminal = true →
      copyBuffer (pre ++ IoEv.xfer d (some m) :: post) =
        (xferChunks pre, some m)) := by
  have key : ∀ (pre : List IoEv) (tail : List IoEv) (res : List (List Nat) × Option String),
      pre.all nonTerminal = true → copyBuffer tail = res →
      copyBuffer (pre ++ tail) = (xferChunks pre ++ res.1, res.2) := by
    intro pre
    induction pre with
    | nil => intro tail res _ h; simpa [xferChunks] using h
    | cons ev rest ih =>
      intro tail res hall h
      cases ev with
      | xfer d werr =>
        cases werr with
        | none =>
          have := ih tail res (by simpa [nonTerminal] using hall) h
          simp [copyBuffer, xferChunks, this]
        | some w => simp [nonTerminal] at hall
      | eof => simp [nonTerminal] at hall
      | rerr m => simp [nonTerminal] at hall
  refine ⟨?_, ?_, ?_, ?_⟩
  · intro env; exact ⟨rfl, rfl, rfl, rfl, rfl⟩
  · intro pre post hall
    simpa using key pre (IoEv.eof :: post) ([], none) hall rfl
  · intro pre m post hall
    simpa using key pre (IoEv.rerr m :: post) ([], some m) hall rfl
  · intro pre d m post hall
    simpa using key pre (IoEv.xfer d (some m) :: post) ([], some m) hall rfl

/-- Witness for C9: a concrete relay that copies two chunks and hits a read
error; the buffer is returned, the destination half-closed, the error
returned, and the trailing events ignored. -/
theorem proxy_relay_contract_witness :
    (Proxy { events := [IoEv.xfer [1, 2] none, IoEv.rerr "reset",
                        IoEv.xfer [9] none],
             dstCloseWriter := true }).result = some "reset" ∧
    (Proxy { events := [IoEv.xfer [1, 2] none, IoEv.rerr "reset",
                        IoEv.xfer [9] none],
             dstCloseWriter := true }).closeWriteCalled = true ∧
    (Proxy { events := [IoEv.xfer [1, 2] none, IoEv.rerr "reset",
                        IoEv.xfer [9] none],
             dstCloseWriter := true }).poolPuts = 1 ∧
    copyBuffer [IoEv.xfer [1, 2] none, IoEv.rerr "reset",
                IoEv.xfer [9] none] = ([[1, 2]], some "reset") := by
  have h := proxy_relay_contract.1
    { events := [IoEv.xfer [1, 2] none, IoEv.rerr "reset",
                 IoEv.xfer [9] none], dstCloseWriter := true }
  have h2 := proxy_relay_contract.2.2.1 [IoEv.xfer [1, 2] none] "reset"
    [IoEv.xfer [9] none] (by decide)
  refine ⟨?_, h.2.2.1, h.2.1, by simpa [xferChunks] using h2⟩
  rw [h.2.2.2.1]
  simpa [xferChunks] using congrArg Prod.snd h2

end Socks5
